import Mathlib

/-!
Shallow embedding of the Restaurant-Reservation-System MCP server
(`server.py`, `models.py`, `services.py`) and proofs of the specification
claims about it.

Modelling conventions:
* Python `datetime` objects are `PyDateTime` (year/month/day/hour/minute);
  chronological comparison goes through `PyDateTime.toMin`, minutes since
  the 1970-01-01 epoch, computed with the standard closed-form
  civil-calendar conversion.  `datetime.fromisoformat` is modelled on the
  canonical minute-precision ISO form `YYYY-MM-DDTHH:MM` used throughout
  the system; any other string is treated as a `ValueError`.
* SQLAlchemy `ilike` is modelled by a full SQL LIKE pattern matcher
  (`%` and `_` wildcards) over lower-cased strings.
* The database is a `Store` value; each tool is a pure function from the
  store and its arguments to a result (and, for mutating tools, a new
  store).  A Python exception escaping the tool is an `Except.error`.
* Python truthiness tests on optional arguments (`if reservation_id:`)
  are modelled by `truthyInt` / `truthyStr`.
-/

/-- SQL LIKE pattern matching over character lists, fuelled so the
recursion is structural (every recursive call strictly decreases
`pattern.length + text.length`, so any fuel above that bound computes
the true answer): `%` matches any (possibly empty) sequence, `_`
matches exactly one character, anything else matches itself. -/
def likeMatchF : Nat → List Char → List Char → Bool
  | 0, _, _ => false
  | _ + 1, [], t => t.isEmpty
  | fuel + 1, p :: ps, t =>
    if p = '%' then
      likeMatchF fuel ps t ||
        (match t with
         | [] => false
         | _ :: ts => likeMatchF fuel (p :: ps) ts)
    else
      match t with
      | [] => false
      | c :: ts => (if p = '_' then true else p == c) && likeMatchF fuel ps ts

/-- SQL LIKE pattern matching: first argument is the pattern, second the
text. -/
def likeMatch (ps t : List Char) : Bool :=
  likeMatchF (ps.length + t.length + 1) ps t

/-- Lower-cased character list of a string. -/
def lowerList (s : String) : List Char := s.toList.map Char.toLower

/-- Case-insensitive SQL LIKE, as SQLAlchemy's `column.ilike(pattern)`. -/
def ilike (col pattern : String) : Bool :=
  likeMatch (lowerList pattern) (lowerList col)

/-- Case-insensitive LIKE on a nullable column: SQL `NULL ILIKE p` is not
true, so a `none` column never passes the filter. -/
def optIlike (col : Option String) (pattern : String) : Bool :=
  match col with
  | none => false
  | some s => ilike s pattern

/-- Days since 1970-01-01 of the civil date (y, m, d), standard
closed-form Gregorian conversion. -/
def daysFromCivil (y m d : Int) : Int :=
  let y2 := if m ≤ 2 then y - 1 else y
  let era := y2.fdiv 400
  let yoe := y2 - era * 400
  let mp := if m ≤ 2 then m + 9 else m - 3
  let doy := (153 * mp + 2).fdiv 5 + d - 1
  let doe := yoe * 365 + yoe.fdiv 4 - yoe.fdiv 100 + doy
  era * 146097 + doe - 719468

/-- Civil date (y, m, d) of a day count since 1970-01-01, inverse of
`daysFromCivil`. -/
def civilFromDays (z0 : Int) : Int × Int × Int :=
  let z := z0 + 719468
  let era := z.fdiv 146097
  let doe := z - era * 146097
  let yoe := (doe - doe.fdiv 1460 + doe.fdiv 36524 - doe.fdiv 146096).fdiv 365
  let doy := doe - (365 * yoe + yoe.fdiv 4 - yoe.fdiv 100)
  let mp := (5 * doy + 2).fdiv 153
  let d := doy - (153 * mp + 2).fdiv 5 + 1
  let m := if mp < 10 then mp + 3 else mp - 9
  let y := (yoe + era * 400) + (if m ≤ 2 then 1 else 0)
  (y, m, d)

/-- A naive Python `datetime` at minute precision (the precision the
system's ISO strings and `%Y-%m-%d %H:%M` formatting use). -/
structure PyDateTime where
  year : Nat
  month : Nat
  day : Nat
  hour : Nat
  minute : Nat
deriving DecidableEq, Repr

/-- Minutes since the 1970-01-01 epoch; Python `datetime` comparison and
`timedelta` arithmetic are modelled through this value. -/
def PyDateTime.toMin (dt : PyDateTime) : Int :=
  daysFromCivil dt.year dt.month dt.day * 1440 + dt.hour * 60 + dt.minute

/-- Rebuild a `PyDateTime` from epoch minutes. -/
def minToDT (t : Int) : PyDateTime :=
  let z := t.fdiv 1440
  let rem := (t - z * 1440).toNat
  let c := civilFromDays z
  ⟨c.1.toNat, c.2.1.toNat, c.2.2.toNat, rem / 60, rem % 60⟩

/-- Python `dt + timedelta(hours=h)`. -/
def PyDateTime.addHours (dt : PyDateTime) (h : Nat) : PyDateTime :=
  minToDT (dt.toMin + h * 60)

/-- Zero-pad a number to two digits. -/
def pad2 (n : Nat) : String := if n < 10 then "0" ++ toString n else toString n

/-- Zero-pad a number to four digits. -/
def pad4 (n : Nat) : String :=
  if n < 10 then "000" ++ toString n
  else if n < 100 then "00" ++ toString n
  else if n < 1000 then "0" ++ toString n
  else toString n

/-- Python `dt.strftime("%Y-%m-%d %H:%M")`. -/
def strftimeYmdHM (dt : PyDateTime) : String :=
  pad4 dt.year ++ "-" ++ pad2 dt.month ++ "-" ++ pad2 dt.day ++ " " ++
    pad2 dt.hour ++ ":" ++ pad2 dt.minute

/-- Gregorian leap-year test. -/
def isLeapYear (y : Nat) : Bool := y % 4 == 0 && (y % 100 != 0 || y % 400 == 0)

/-- Number of days in a month. -/
def daysInMonth (y m : Nat) : Nat :=
  if m == 2 then (if isLeapYear y then 29 else 28)
  else if m == 4 || m == 6 || m == 9 || m == 11 then 30
  else 31

/-- Numeric value of a decimal digit character. -/
def digitVal (c : Char) : Option Nat :=
  if c.isDigit then some (c.toNat - 48) else none

/-- The separator characters of `YYYY-MM-DDTHH:MM` at positions 4, 7,
10 and 13. -/
def isoSeps (cs : List Char) : Bool :=
  cs.getD 4 ' ' == '-' && cs.getD 7 ' ' == '-' && cs.getD 10 ' ' == 'T' && cs.getD 13 ' ' == ':'

/-- Read a two-digit decimal field starting at position `i`. -/
def twoDigits (cs : List Char) (i : Nat) : Option Nat := do
  let a ← digitVal (cs.getD i ' ')
  let b ← digitVal (cs.getD (i + 1) ' ')
  some (a * 10 + b)

/-- Python `datetime.fromisoformat`, modelled on the canonical
minute-precision form `YYYY-MM-DDTHH:MM`; `none` is a raised
`ValueError`. -/
def fromisoformat (s : String) : Option PyDateTime :=
  let cs := s.toList
  if cs.length == 16 && isoSeps cs then do
    let y1 ← twoDigits cs 0
    let y2 ← twoDigits cs 2
    let month ← twoDigits cs 5
    let day ← twoDigits cs 8
    let hour ← twoDigits cs 11
    let minute ← twoDigits cs 14
    let year := y1 * 100 + y2
    if 1 ≤ year ∧ 1 ≤ month ∧ month ≤ 12 ∧ 1 ≤ day ∧ day ≤ daysInMonth year month ∧
        hour ≤ 23 ∧ minute ≤ 59 then
      some ⟨year, month, day, hour, minute⟩
    else none
  else none

/-- Python truthiness of an optional int (`None` and `0` are falsy). -/
def truthyInt : Option Int → Bool
  | none => false
  | some i => i != 0

/-- Python truthiness of an optional string (`None` and `""` are falsy). -/
def truthyStr : Option String → Bool
  | none => false
  | some s => s != ""

/-- Row of the `restaurants` table (`models.py`). -/
structure Restaurant where
  id : Int
  name : String
  location : String
  cuisine : String
  seating_capacity : Int
  rating : Option Rat
  price_for_two : Option Rat
  contact_number : String
  daily_specials : Option String
  amenities : Option String
deriving DecidableEq, Repr

/-- Row of the `reservations` table (`models.py`). -/
structure Reservation where
  id : Int
  user_name : String
  user_contact : String
  restaurant_id : Int
  reservation_time : PyDateTime
  guests : Int
deriving DecidableEq, Repr

/-- Row of the `feedback` table (`models.py`). -/
structure UserFeedback where
  id : Int
  reservation_id : Int
  rating : Option Rat
  comments : Option String
deriving DecidableEq, Repr

/-- The database state: table contents in insertion (rowid) order, plus
the autoincrement counters used for new primary keys. -/
structure Store where
  restaurants : List Restaurant
  reservations : List Reservation
  feedback : List UserFeedback
  nextReservationId : Int
  nextFeedbackId : Int
deriving DecidableEq, Repr

/-- Python `int(q)` on a numeric column value: truncation toward zero. -/
def ratTruncInt (q : Rat) : Int := q.num.tdiv (q.den : Int)

/-- The reservation-overlap filter used by both `check_availability` and
`make_reservation`: same restaurant and `reservation_time` within the
inclusive `[center − 1h, center + 1h]` window. -/
def inOverlapWindow (center : PyDateTime) (rid : Int) (r : Reservation) : Bool :=
  r.restaurant_id == rid &&
    decide (center.toMin - 60 ≤ r.reservation_time.toMin) &&
    decide (r.reservation_time.toMin ≤ center.toMin + 60)

/-- Sum of guest counts of the reservations in the overlap window
(`sum(res.guests for res in existing_reservations)`). -/
def overlappingGuestCount (resvs : List Reservation) (rid : Int) (center : PyDateTime) : Int :=
  ((resvs.filter (inOverlapWindow center rid)).map Reservation.guests).sum

/-- The available capacity `check_availability` computes:
`seating_capacity - total_guests`. -/
def availableCapacity (db : Store) (r : Restaurant) (center : PyDateTime) : Int :=
  r.seating_capacity - overlappingGuestCount db.reservations r.id center

/-- The chained restaurant query of `check_availability`: filter by
location (`ilike` with the raw argument, no wildcards added), optionally
by name (wrapped in `%...%`, applied only when the argument is truthy),
then by each preference against `amenities` (each wrapped in `%...%`). -/
def restaurantQueryCA (restaurants : List Restaurant) (location : String)
    (restaurant : Option String) (preferences : List String) : List Restaurant :=
  let q1 := restaurants.filter (fun r => ilike r.location location)
  let q2 := if truthyStr restaurant then
      q1.filter (fun r => ilike r.name ("%" ++ restaurant.getD "" ++ "%"))
    else q1
  preferences.foldl (fun q pref => q.filter (fun r => optIlike r.amenities ("%" ++ pref ++ "%"))) q2

/-- Python `s.split(",")` on a character list: split at every comma,
keeping empty pieces. -/
def splitCommaList : List Char → List (List Char)
  | [] => [[]]
  | c :: cs =>
    let r := splitCommaList cs
    if c = ',' then [] :: r
    else
      match r with
      | [] => [[c]]
      | h :: t => (c :: h) :: t

/-- Python `str.strip()` whitespace test. -/
def isSpaceChar (c : Char) : Bool :=
  c = ' ' || c = '\t' || c = '\n' || c = '\r' || c = '\x0b' || c = '\x0c'

/-- Python `s.strip()`: drop whitespace from both ends. -/
def stripList (cs : List Char) : List Char :=
  ((cs.dropWhile isSpaceChar).reverse.dropWhile isSpaceChar).reverse

/-- Python `matched_restaurant.amenities.split(",") if ... else []`
followed by `[a.strip() for a in amenities]`. -/
def amenitiesList (a : Option String) : List String :=
  match a with
  | none => []
  | some s => if s = "" then [] else (splitCommaList s.toList).map (fun cs => ⟨stripList cs⟩)

/-- Python `matched_restaurant.daily_specials or "Not available"`. -/
def orNotAvailable (s : Option String) : String :=
  match s with
  | none => "Not available"
  | some v => if v = "" then "Not available" else v

/-- Result dict of `check_availability`. -/
structure AvailabilityResult where
  available : Bool
  matched_restaurant : Option String
  available_slots : List String
  daily_specials : String
  price_for_two : String
  amenities : List String
deriving DecidableEq, Repr

/-- The `check_availability` tool (`server.py` lines 17-100). -/
def check_availability (db : Store) (location : String) (date_time : String) (guests : Int)
    (preferences : List String) (restaurant : Option String) : Except String AvailabilityResult :=
  match fromisoformat date_time with
  | none => .error ("ValueError: Invalid isoformat string: " ++ date_time)
  | some date_time_obj =>
    match (restaurantQueryCA db.restaurants location restaurant preferences).head? with
    | none => .ok ⟨false, none, [], "", "", []⟩
    | some matched =>
      let total_guests := overlappingGuestCount db.reservations matched.id date_time_obj
      let available_capacity := matched.seating_capacity - total_guests
      let is_available : Bool := decide (available_capacity ≥ guests)
      let available_slots :=
        if is_available then [strftimeYmdHM date_time_obj]
        else [strftimeYmdHM (date_time_obj.addHours 1), strftimeYmdHM (date_time_obj.addHours 2),
              strftimeYmdHM (date_time_obj.addHours 3)]
      match matched.price_for_two with
      | none => .error "TypeError: int() argument must be a number, not NoneType"
      | some p =>
        .ok ⟨is_available, some matched.name, available_slots,
             orNotAvailable matched.daily_specials,
             "₹" ++ toString (ratTruncInt p), amenitiesList matched.amenities⟩

/-- The `reservation_details` dict of a successful `make_reservation`. -/
structure ReservationDetails where
  restaurant : String
  location : String
  reservation_time : String
  guests : Int
  contact : String
deriving DecidableEq, Repr

/-- Result dict of `make_reservation`. -/
structure MakeReservationResult where
  success : Bool
  message : String
  reservation_details : Option ReservationDetails
deriving DecidableEq, Repr

/-- The `make_reservation` tool (`server.py` lines 102-184). -/
def make_reservation (db : Store) (user_name user_contact restaurant_name date_time : String)
    (guests : Int) : Except String (MakeReservationResult × Store) :=
  match fromisoformat date_time with
  | none => .error ("ValueError: Invalid isoformat string: " ++ date_time)
  | some date_time_obj =>
    match db.restaurants.find? (fun r => ilike r.name ("%" ++ restaurant_name ++ "%")) with
    | none => .ok (⟨false, "No restaurant found named '" ++ restaurant_name ++ "'.", none⟩, db)
    | some restaurant =>
      let total_guests := overlappingGuestCount db.reservations restaurant.id date_time_obj
      if total_guests + guests > restaurant.seating_capacity then
        .ok (⟨false, "Selected time slot is full. Please try a different time.", none⟩, db)
      else
        let newRes : Reservation :=
          ⟨db.nextReservationId, user_name, user_contact, restaurant.id, date_time_obj, guests⟩
        .ok (⟨true, "Reservation confirmed at " ++ restaurant.name ++ "!",
              some ⟨restaurant.name, restaurant.location, strftimeYmdHM date_time_obj, guests,
                    user_contact⟩⟩,
             { db with reservations := db.reservations ++ [newRes],
                       nextReservationId := db.nextReservationId + 1 })

/-- Result dict of `cancel_reservation`. -/
structure CancelResult where
  success : Bool
  message : String
deriving DecidableEq, Repr

/-- Python `db.delete(reservation)`: remove the row with that primary
key. -/
def deleteReservation (db : Store) (r : Reservation) : Store :=
  { db with reservations := db.reservations.filter (fun x => x.id != r.id) }

/-- The reservation filter of `cancel_reservation`'s triple-lookup mode:
contact, restaurant and exact reservation time must all be equal. -/
def triplePred (c : String) (rid : Int) (dt : PyDateTime) (r : Reservation) : Bool :=
  r.user_contact == c && r.restaurant_id == rid && r.reservation_time == dt

/-- The shared delete-and-confirm tail of `cancel_reservation`
(`server.py` lines 252-258). -/
def cancelSuccess (db : Store) (r : Reservation) : CancelResult × Store :=
  (⟨true, "Reservation successfully canceled for " ++ r.user_name ++ " at " ++
      strftimeYmdHM r.reservation_time ++ "."⟩,
   deleteReservation db r)

/-- The `cancel_reservation` tool (`server.py` lines 186-258).  The two
lookup modes are selected by Python truthiness of the arguments. -/
def cancel_reservation (db : Store) (reservation_id : Option Int)
    (user_contact restaurant_name date_time : Option String) :
    Except String (CancelResult × Store) :=
  if truthyInt reservation_id then
    match db.reservations.find? (fun r => r.id == reservation_id.getD 0) with
    | none =>
      .ok (⟨false, "No reservation found with ID " ++ toString (reservation_id.getD 0) ++ "."⟩, db)
    | some reservation => .ok (cancelSuccess db reservation)
  else if truthyStr user_contact && truthyStr restaurant_name && truthyStr date_time then
    match fromisoformat (date_time.getD "") with
    | none => .error ("ValueError: Invalid isoformat string: " ++ date_time.getD "")
    | some date_time_obj =>
      match db.restaurants.find? (fun r => ilike r.name ("%" ++ restaurant_name.getD "" ++ "%")) with
      | none => .ok (⟨false, "No restaurant found named '" ++ restaurant_name.getD "" ++ "'."⟩, db)
      | some restaurant =>
        match db.reservations.find?
            (triplePred (user_contact.getD "") restaurant.id date_time_obj) with
        | none => .ok (⟨false, "No matching reservation found with the given details."⟩, db)
        | some reservation => .ok (cancelSuccess db reservation)
  else
    .ok (⟨false, "Please provide either reservation ID or (contact, restaurant, and datetime)."⟩, db)

/-- Result dict of `submit_feedback`. -/
structure FeedbackResult where
  success : Bool
  message : String
deriving DecidableEq, Repr

/-- The `submit_feedback` tool (`server.py` lines 260-297).  It parses
nothing and formats no nullable column, so it cannot raise. -/
def submit_feedback (db : Store) (reservation_id : Int) (rating : Option Rat)
    (comments : Option String) : FeedbackResult × Store :=
  match db.reservations.find? (fun r => r.id == reservation_id) with
  | none => (⟨false, "No reservation found with ID " ++ toString reservation_id ++ "."⟩, db)
  | some _ =>
    (⟨true, "Thank you for your feedback! It has been recorded successfully."⟩,
     { db with feedback := db.feedback ++ [⟨db.nextFeedbackId, reservation_id, rating, comments⟩],
               nextFeedbackId := db.nextFeedbackId + 1 })

/-- A conversation message (`services.py`). -/
structure Msg where
  role : String
  content : String
deriving DecidableEq, Repr

/-- Role test `msg["role"] == "system"`. -/
def isSystemMsg (m : Msg) : Bool := m.role == "system"

/-- Role test `msg["role"] in ("user", "assistant")`. -/
def isUserAssistantMsg (m : Msg) : Bool := m.role == "user" || m.role == "assistant"

/-- Python `xs[-k:]` (note `xs[-0:]` is the whole list). -/
def takeLastPy (k : Nat) (xs : List Msg) : List Msg :=
  if k == 0 then xs else xs.drop (xs.length - k)

/-- `ReservationAgent.chat_history` (`services.py` lines 164-168):
rebuild `self.messages` as all system messages followed by the last
`MAX_MEMORY * 2` user/assistant messages. -/
def chat_history (maxMemory : Nat) (messages : List Msg) : List Msg :=
  messages.filter isSystemMsg ++ takeLastPy (maxMemory * 2) (messages.filter isUserAssistantMsg)

/-- One completed exchange: the orchestration loop appends a batch of
messages to the log and then calls `chat_history`; iterated over any
number of turns. -/
def runTurns (maxMemory : Nat) : List Msg → List (List Msg) → List Msg
  | ms, [] => ms
  | ms, batch :: rest => runTurns maxMemory (chat_history maxMemory (ms ++ batch)) rest

/-- Whether an `Except` value is a raised exception. -/
def isErr {ε α : Type} (e : Except ε α) : Bool :=
  match e with
  | .error _ => true
  | .ok _ => false

example : fromisoformat "2025-05-15T20:00" = some ⟨2025, 5, 15, 20, 0⟩ := by decide
example : fromisoformat "not-a-date" = none := by rfl
example : fromisoformat "2025-02-30T10:00" = none := by decide
example : PyDateTime.addHours ⟨2025, 5, 15, 23, 0⟩ 2 = ⟨2025, 5, 16, 1, 0⟩ := by decide
example : strftimeYmdHM ⟨2025, 5, 15, 20, 0⟩ = "2025-05-15 20:00" := by rfl
example : ilike "Koramangala" "koramangala" = true := by decide
example : ilike "Koramangala Bangalore" "Koramangala" = false := by decide
example : ilike "Royal Curry House" "%royal curry%" = true := by decide

/-!  Concrete fixtures used by the witness and counterexample theorems.
`store0` realises the spec's worked example: capacity 20, reservations
of 8 and 10 guests at 19:00 and 19:30 around a 20:00 request. -/

def royalCurry : Restaurant :=
  { id := 1, name := "Royal Curry House", location := "Koramangala",
    cuisine := "North Indian", seating_capacity := 20, rating := some 4,
    price_for_two := some 1500, contact_number := "080-1234",
    daily_specials := some "Butter Chicken Deluxe", amenities := some "rooftop, live music" }

def resv1 : Reservation :=
  { id := 1, user_name := "Arjun", user_contact := "9845012345",
    restaurant_id := 1, reservation_time := ⟨2025, 5, 15, 19, 0⟩, guests := 8 }

def resv2 : Reservation :=
  { id := 2, user_name := "Meera", user_contact := "9900000000",
    restaurant_id := 1, reservation_time := ⟨2025, 5, 15, 19, 30⟩, guests := 10 }

def store0 : Store :=
  { restaurants := [royalCurry], reservations := [resv1, resv2], feedback := [],
    nextReservationId := 3, nextFeedbackId := 1 }

def royalCurryNoPrice : Restaurant := { royalCurry with price_for_two := none }

def storeNoPrice : Store := { store0 with restaurants := [royalCurryNoPrice] }

def koramangalaBangalore : Restaurant :=
  { royalCurry with id := 7, location := "Koramangala Bangalore" }

def storeKB : Store :=
  { restaurants := [koramangalaBangalore], reservations := [], feedback := [],
    nextReservationId := 1, nextFeedbackId := 1 }

def storeEmptyResv : Store :=
  { restaurants := [royalCurry], reservations := [], feedback := [],
    nextReservationId := 1, nextFeedbackId := 1 }

/-- C10: `cancel_reservation` selects its lookup mode by Python
truthiness, not by presence: a call with `reservation_id = 0` is routed
to the triple-lookup branch exactly as if no id were given, and a call
where any of `user_contact`, `restaurant_name` or `date_time` is the
empty string falls through to the need-more-information failure even
though the argument was supplied. -/
theorem c10_cancel_truthiness (db : Store) (uc rn dts : Option String) :
    cancel_reservation db (some 0) uc rn dts = cancel_reservation db none uc rn dts
    ∧ cancel_reservation db none (some "") rn dts =
        .ok (⟨false, "Please provide either reservation ID or (contact, restaurant, and datetime)."⟩, db)
    ∧ cancel_reservation db none uc (some "") dts =
        .ok (⟨false, "Please provide either reservation ID or (contact, restaurant, and datetime)."⟩, db)
    ∧ cancel_reservation db none uc rn (some "") =
        .ok (⟨false, "Please provide either reservation ID or (contact, restaurant, and datetime)."⟩, db) := by
  refine ⟨rfl, ?_, ?_, ?_⟩ <;> simp [cancel_reservation, truthyStr, truthyInt]

/-- C9: with no reservation id but contact, restaurant name and
datetime all provided (and truthy), where the restaurant resolves by
substring name match but no reservation matches contact + restaurant +
exact timestamp, `cancel_reservation` returns `success = false` with
exactly the message "No matching reservation found with the given
details." and leaves the store unchanged. -/
theorem c9_cancel_triple_not_found (db : Store) (c n s : String) (dt : PyDateTime)
    (rest : Restaurant) (hc : c ≠ "") (hn : n ≠ "") (hs : s ≠ "")
    (hparse : fromisoformat s = some dt)
    (hrest : db.restaurants.find? (fun r => ilike r.name ("%" ++ n ++ "%")) = some rest)
    (hnores : db.reservations.find? (triplePred c rest.id dt) = none) :
    cancel_reservation db none (some c) (some n) (some s) =
      .ok (⟨false, "No matching reservation found with the given details."⟩, db) := by
  simp [cancel_reservation, truthyInt, truthyStr, hc, hn, hs, hparse, hrest, hnores]

/-- Witness for C9 at the spec's own example arguments: contact
`9845012345`, name `Royal Curry` (a substring of `Royal Curry House`),
time `2025-05-15T20:00`, with no reservation in the store. -/
theorem c9_witness :
    cancel_reservation storeEmptyResv none (some "9845012345") (some "Royal Curry")
        (some "2025-05-15T20:00") =
      .ok (⟨false, "No matching reservation found with the given details."⟩, storeEmptyResv) :=
  c9_cancel_triple_not_found storeEmptyResv "9845012345" "Royal Curry" "2025-05-15T20:00"
    ⟨2025, 5, 15, 20, 0⟩ royalCurry (by decide) (by decide) (by decide) (by decide)
    (by decide) (by decide)

/-- C8: for a reservation id present in the store, `submit_feedback`
returns `success = true` with the thank-you message and appends exactly
one linked `UserFeedback` row, for any combination of present or absent
rating and comments; for an absent id it returns `success = false` with
the not-found message and an unchanged store; and repeated feedback for
the same reservation is always accepted (no uniqueness constraint). -/
theorem c8_submit_feedback (db : Store) (rid : Int) (rating : Option Rat)
    (comments : Option String) :
    (∀ r, db.reservations.find? (fun x => x.id == rid) = some r →
      (submit_feedback db rid rating comments).1 =
          ⟨true, "Thank you for your feedback! It has been recorded successfully."⟩
        ∧ (submit_feedback db rid rating comments).2.feedback =
            db.feedback ++ [⟨db.nextFeedbackId, rid, rating, comments⟩]
        ∧ (submit_feedback db rid rating comments).2.reservations = db.reservations
        ∧ (submit_feedback db rid rating comments).2.restaurants = db.restaurants
        ∧ ∀ rating2 comments2,
            (submit_feedback (submit_feedback db rid rating comments).2 rid
                rating2 comments2).1.success = true)
    ∧ (db.reservations.find? (fun x => x.id == rid) = none →
        submit_feedback db rid rating comments =
          (⟨false, "No reservation found with ID " ++ toString rid ++ "."⟩, db)) := by
  constructor
  · intro r hr
    refine ⟨?_, ?_, ?_, ?_, ?_⟩ <;> simp [submit_feedback, hr]
  · intro hn
    simp [submit_feedback, hn]

/-- Witness for C8: feedback on reservation 1 of `store0` succeeds, a
second feedback on the same reservation succeeds again, and feedback on
the absent reservation 99 reports not-found. -/
theorem c8_witness :
    (submit_feedback store0 1 (some 4) none).1 =
        ⟨true, "Thank you for your feedback! It has been recorded successfully."⟩
      ∧ (submit_feedback (submit_feedback store0 1 (some 4) none).2 1 none
            (some "great")).1.success = true
      ∧ submit_feedback store0 99 none none =
          (⟨false, "No reservation found with ID 99."⟩, store0) :=
  ⟨((c8_submit_feedback store0 1 (some 4) none).1 resv1 (by decide)).1,
   ((c8_submit_feedback store0 1 (some 4) none).1 resv1 (by decide)).2.2.2.2 none (some "great"),
   (c8_submit_feedback store0 99 none none).2 (by decide)⟩

/-- C2: for every `make_reservation` call whose restaurant resolves, if
the overlapping guest count at the requested time plus the requested
guests exceeds the seating capacity, the call returns `success = false`
with the slot-full message and the store is unchanged (no reservation
row created); otherwise exactly one reservation row is appended and a
confirmation with the echoed details is returned. -/
theorem c2_make_reservation (db : Store) (un uc rn dts : String) (g : Int)
    (dt : PyDateTime) (rest : Restaurant)
    (hparse : fromisoformat dts = some dt)
    (hrest : db.restaurants.find? (fun r => ilike r.name ("%" ++ rn ++ "%")) = some rest) :
    (overlappingGuestCount db.reservations rest.id dt + g > rest.seating_capacity →
      make_reservation db un uc rn dts g =
        .ok (⟨false, "Selected time slot is full. Please try a different time.", none⟩, db))
    ∧ (¬ (overlappingGuestCount db.reservations rest.id dt + g > rest.seating_capacity) →
      make_reservation db un uc rn dts g =
        .ok (⟨true, "Reservation confirmed at " ++ rest.name ++ "!",
              some ⟨rest.name, rest.location, strftimeYmdHM dt, g, uc⟩⟩,
             { db with reservations := db.reservations ++
                         [⟨db.nextReservationId, un, uc, rest.id, dt, g⟩],
                       nextReservationId := db.nextReservationId + 1 })) := by
  constructor <;> intro h <;> simp [make_reservation, hparse, hrest, h]

/-- Witness for C2 at the spec's worked example: 18 guests already
overlap 20:00 in `store0` (capacity 20), so booking 3 fails with no
state change, while booking 2 inserts exactly one row. -/
theorem c2_witness :
    make_reservation store0 "Arjun" "9845012345" "royal curry" "2025-05-15T20:00" 3 =
      .ok (⟨false, "Selected time slot is full. Please try a different time.", none⟩, store0)
    ∧ make_reservation store0 "Arjun" "9845012345" "royal curry" "2025-05-15T20:00" 2 =
      .ok (⟨true, "Reservation confirmed at " ++ royalCurry.name ++ "!",
            some ⟨royalCurry.name, royalCurry.location, strftimeYmdHM ⟨2025, 5, 15, 20, 0⟩, 2,
                  "9845012345"⟩⟩,
           { store0 with reservations := store0.reservations ++
                           [⟨store0.nextReservationId, "Arjun", "9845012345", royalCurry.id,
                             ⟨2025, 5, 15, 20, 0⟩, 2⟩],
                         nextReservationId := store0.nextReservationId + 1 }) :=
  ⟨(c2_make_reservation store0 "Arjun" "9845012345" "royal curry" "2025-05-15T20:00" 3
      ⟨2025, 5, 15, 20, 0⟩ royalCurry (by decide) (by decide)).1 (by decide),
   (c2_make_reservation store0 "Arjun" "9845012345" "royal curry" "2025-05-15T20:00" 2
      ⟨2025, 5, 15, 20, 0⟩ royalCurry (by decide) (by decide)).2 (by decide)⟩

/-- C5: for every `check_availability` call that resolves a restaurant
(with non-NULL price), the result has `available = true` iff seating
capacity minus the overlapping guest count is at least the requested
guests; when available the slot list is exactly the requested time, and
when not available it is exactly the three times 1, 2 and 3 hours later
— for every store, i.e. with no capacity check at the fallback times;
when no restaurant resolves the result is `available = false` with
empty matched-restaurant, slot, specials, price and amenity fields. -/
theorem c5_check_availability (db : Store) (loc dts : String) (g : Int)
    (prefs : List String) (rn : Option String) (dt : PyDateTime)
    (hparse : fromisoformat dts = some dt) :
    ((restaurantQueryCA db.restaurants loc rn prefs).head? = none →
      check_availability db loc dts g prefs rn = .ok ⟨false, none, [], "", "", []⟩)
    ∧ (∀ m p, (restaurantQueryCA db.restaurants loc rn prefs).head? = some m →
        m.price_for_two = some p →
        ∃ res, check_availability db loc dts g prefs rn = .ok res
          ∧ (res.available = true ↔ availableCapacity db m dt ≥ g)
          ∧ (res.available = true → res.available_slots = [strftimeYmdHM dt])
          ∧ (res.available = false →
              res.available_slots = [strftimeYmdHM (dt.addHours 1),
                strftimeYmdHM (dt.addHours 2), strftimeYmdHM (dt.addHours 3)])
          ∧ res.matched_restaurant = some m.name) := by
  constructor
  · intro hnone
    simp [check_availability, hparse, hnone]
  · intro m p hm hp
    by_cases hav : m.seating_capacity - overlappingGuestCount db.reservations m.id dt ≥ g
    · refine ⟨⟨true, some m.name, [strftimeYmdHM dt], orNotAvailable m.daily_specials,
          "₹" ++ toString (ratTruncInt p), amenitiesList m.amenities⟩, ?_, ?_, ?_, ?_, rfl⟩
      · simp [check_availability, hparse, hm, hp, hav]
      · simp [availableCapacity, hav]
      · intro _; rfl
      · intro h; simp at h
    · refine ⟨⟨false, some m.name,
          [strftimeYmdHM (dt.addHours 1), strftimeYmdHM (dt.addHours 2),
           strftimeYmdHM (dt.addHours 3)], orNotAvailable m.daily_specials,
          "₹" ++ toString (ratTruncInt p), amenitiesList m.amenities⟩, ?_, ?_, ?_, ?_, rfl⟩
      · simp [check_availability, hparse, hm, hp, hav]
      · simp [availableCapacity, hav]
      · intro h; simp at h
      · intro _; rfl

/-- Witness for C5: the spec's worked example (request for 3 guests at
2025-05-15T20:00 against `store0`) resolves Royal Curry House, is not
available (capacity 20 against 18 + 3), and offers the fallback slots
21:00, 22:00 and 23:00; a request in a location with no restaurant
returns the empty envelope. -/
theorem c5_witness :
    (∃ res, check_availability store0 "Koramangala" "2025-05-15T20:00" 3 [] none = .ok res
      ∧ (res.available = true ↔ availableCapacity store0 royalCurry ⟨2025, 5, 15, 20, 0⟩ ≥ 3)
      ∧ (res.available = true →
          res.available_slots = [strftimeYmdHM ⟨2025, 5, 15, 20, 0⟩])
      ∧ (res.available = false →
          res.available_slots = [strftimeYmdHM (PyDateTime.addHours ⟨2025, 5, 15, 20, 0⟩ 1),
            strftimeYmdHM (PyDateTime.addHours ⟨2025, 5, 15, 20, 0⟩ 2),
            strftimeYmdHM (PyDateTime.addHours ⟨2025, 5, 15, 20, 0⟩ 3)])
      ∧ res.matched_restaurant = some royalCurry.name)
    ∧ check_availability store0 "Indiranagar" "2025-05-15T20:00" 3 [] none =
        .ok ⟨false, none, [], "", "", []⟩ :=
  ⟨(c5_check_availability store0 "Koramangala" "2025-05-15T20:00" 3 [] none
      ⟨2025, 5, 15, 20, 0⟩ (by decide)).2 royalCurry 1500 (by decide) (by decide),
   (c5_check_availability store0 "Indiranagar" "2025-05-15T20:00" 3 [] none
      ⟨2025, 5, 15, 20, 0⟩ (by decide)).1 (by decide)⟩

/-- C1 as amended: the exact error surface of the tools.  A tool call
raises (escapes as an exception rather than a result envelope) exactly
when it parses an unparseable `date_time`, or — for
`check_availability` — when the matched restaurant's `price_for_two` is
NULL; every domain failure (restaurant/reservation not found, slot
full, missing cancellation identifiers) is returned as a structured
result.  `submit_feedback` parses nothing and so never raises, which
its return type (no `Except`) records. -/
theorem c1_error_surface (db : Store) (loc dts un uc rn : String) (g : Int)
    (prefs : List String) (rno : Option String) (rid : Option Int)
    (cuc crn cdt : Option String) :
    (isErr (check_availability db loc dts g prefs rno) = true ↔
      (fromisoformat dts = none ∨
        ∃ m, (restaurantQueryCA db.restaurants loc rno prefs).head? = some m ∧
          m.price_for_two = none))
    ∧ (isErr (make_reservation db un uc rn dts g) = true ↔ fromisoformat dts = none)
    ∧ (isErr (cancel_reservation db rid cuc crn cdt) = true ↔
        (truthyInt rid = false ∧ (truthyStr cuc && truthyStr crn && truthyStr cdt) = true ∧
          fromisoformat (cdt.getD "") = none)) := by
  refine ⟨?_, ?_, ?_⟩
  · cases hdt : fromisoformat dts with
    | none => simp [check_availability, hdt, isErr]
    | some dt =>
      cases hm : (restaurantQueryCA db.restaurants loc rno prefs).head? with
      | none => simp [check_availability, hdt, hm, isErr]
      | some m =>
        cases hp : m.price_for_two with
        | none => simp [check_availability, hdt, hm, hp, isErr]
        | some p => simp [check_availability, hdt, hm, hp, isErr]
  · cases hdt : fromisoformat dts with
    | none => simp [make_reservation, hdt, isErr]
    | some dt =>
      cases hrest : db.restaurants.find? (fun r => ilike r.name ("%" ++ rn ++ "%")) with
      | none => simp [make_reservation, hdt, hrest, isErr]
      | some rest =>
        simp only [make_reservation, hdt, hrest]
        split <;> simp [isErr]
  · by_cases hid : truthyInt rid = true
    · cases hfind : db.reservations.find? (fun r => r.id == rid.getD 0) with
      | none => simp [cancel_reservation, hid, hfind, isErr]
      | some r => simp [cancel_reservation, hid, hfind, isErr]
    · have hid2 : truthyInt rid = false := by simpa using hid
      by_cases htrip : (truthyStr cuc && truthyStr crn && truthyStr cdt) = true
      · cases hdt : fromisoformat (cdt.getD "") with
        | none => simp [cancel_reservation, hid2, htrip, hdt, isErr]
        | some dt =>
          cases hrest : db.restaurants.find?
              (fun r => ilike r.name ("%" ++ crn.getD "" ++ "%")) with
          | none => simp [cancel_reservation, hid2, htrip, hdt, hrest, isErr]
          | some rest =>
            cases hres : db.reservations.find? (triplePred (cuc.getD "") rest.id dt) with
            | none => simp [cancel_reservation, hid2, htrip, hdt, hrest, hres, isErr]
            | some r => simp [cancel_reservation, hid2, htrip, hdt, hrest, hres, isErr]
      · have htrip2 : (truthyStr cuc && truthyStr crn && truthyStr cdt) = false := by
          simpa using htrip
        simp [cancel_reservation, hid2, htrip2, isErr]

/-- Counterexample to C1 as stated: an unparseable `date_time` makes
`check_availability` raise a `ValueError` instead of returning a result
envelope, and a matched restaurant whose `price_for_two` is NULL makes
it raise a `TypeError` while formatting the price. -/
theorem c1_counterexample :
    check_availability store0 "Koramangala" "tomorrow at 8" 2 [] none =
      .error "ValueError: Invalid isoformat string: tomorrow at 8"
    ∧ check_availability storeNoPrice "Koramangala" "2025-05-15T20:00" 2 [] none =
      .error "TypeError: int() argument must be a number, not NoneType" := by
  exact ⟨by rfl, by rfl⟩

/-- With duplicate-free ids, a member whose id equals the head's id is
the head. -/
lemma head_eq_of_id_eq {x r : Reservation} {xs : List Reservation}
    (hmem : r ∈ x :: xs) (hxn : x.id ∉ xs.map Reservation.id)
    (hx : x.id = r.id) : r = x := by
  rcases List.mem_cons.mp hmem with h | h
  · exact h
  · have : x.id ∈ xs.map Reservation.id := by
      rw [hx]; exact List.mem_map_of_mem Reservation.id h
    exact absurd this hxn

/-- A member whose id differs from the head's id lies in the tail. -/
lemma mem_tail_of_id_ne {x r : Reservation} {xs : List Reservation}
    (hmem : r ∈ x :: xs) (hx : x.id ≠ r.id) : r ∈ xs := by
  rcases List.mem_cons.mp hmem with h | h
  · exact absurd (congrArg Reservation.id h.symm) hx
  · exact h

/-- Deleting one row (by its primary key, with duplicate-free ids)
lowers a filtered guest-count sum by that row's contribution. -/
lemma sum_filter_delete (l : List Reservation) (r : Reservation) (P : Reservation → Bool)
    (hmem : r ∈ l) (hnodup : (l.map Reservation.id).Nodup) :
    (((l.filter (fun x => x.id != r.id)).filter P).map Reservation.guests).sum =
      ((l.filter P).map Reservation.guests).sum - (if P r = true then r.guests else 0) := by
  induction l with
  | nil => cases hmem
  | cons x xs ih =>
    rw [List.map_cons, List.nodup_cons] at hnodup
    obtain ⟨hxn, hnd⟩ := hnodup
    by_cases hx : x.id = r.id
    · have hrx : r = x := head_eq_of_id_eq hmem hxn hx
      subst hrx
      have h1 : (r :: xs).filter (fun y => y.id != r.id) = xs.filter (fun y => y.id != r.id) := by
        simp [List.filter_cons]
      have h2 : xs.filter (fun y => y.id != r.id) = xs := by
        refine List.filter_eq_self.mpr ?_
        intro a ha
        simp only [bne_iff_ne, ne_eq]
        intro hcontr
        exact hxn (hcontr ▸ List.mem_map_of_mem Reservation.id ha)
      rw [h1, h2, List.filter_cons]
      by_cases hP : P r = true
      · simp [hP]
      · simp [hP]
    · have hrxs : r ∈ xs := mem_tail_of_id_ne hmem hx
      have hstep : ((x :: xs).filter (fun y => y.id != r.id)) =
          x :: xs.filter (fun y => y.id != r.id) := by
        simp [List.filter_cons, hx]
      rw [hstep, List.filter_cons, List.filter_cons]
      have ihh := ih hrxs hnd
      by_cases hP : P x = true
      · simp only [hP, if_true, List.map_cons, List.sum_cons, ihh]
        omega
      · rw [if_neg hP, if_neg hP]
        exact ihh

/-- With duplicate-free ids, looking a member up by its id finds it. -/
lemma find_id_of_mem_nodup (l : List Reservation) (r : Reservation)
    (hmem : r ∈ l) (hnodup : (l.map Reservation.id).Nodup) :
    l.find? (fun x => x.id == r.id) = some r := by
  induction l with
  | nil => cases hmem
  | cons x xs ih =>
    rw [List.map_cons, List.nodup_cons] at hnodup
    obtain ⟨hxn, hnd⟩ := hnodup
    by_cases hx : x.id = r.id
    · have hrx : r = x := head_eq_of_id_eq hmem hxn hx
      subst hrx
      simp [List.find?_cons]
    · have hrxs : r ∈ xs := mem_tail_of_id_ne hmem hx
      simp [List.find?_cons, hx, ih hrxs hnd]

/-- Deleting a reservation changes the overlapping guest count by its
contribution to the window. -/
lemma overlappingGuestCount_delete (db : Store) (r : Reservation) (rid : Int) (t : PyDateTime)
    (hmem : r ∈ db.reservations) (hnodup : (db.reservations.map Reservation.id).Nodup) :
    overlappingGuestCount (deleteReservation db r).reservations rid t =
      overlappingGuestCount db.reservations rid t -
        (if inOverlapWindow t rid r = true then r.guests else 0) :=
  sum_filter_delete _ r _ hmem hnodup

/-- A filtered sum written as a sum over the whole list. -/
lemma sum_filter_eq_sum_map_ite (l : List Reservation) (P : Reservation → Bool) :
    ((l.filter P).map Reservation.guests).sum =
      (l.map (fun x => if P x = true then x.guests else 0)).sum := by
  induction l with
  | nil => rfl
  | cons x xs ih =>
    rw [List.filter_cons]
    by_cases hP : P x = true
    · simp [hP, ih]
    · simp [hP, ih]

/-- C3: the computed available capacity equals seating capacity minus
the summed guest counts of the restaurant's reservations inside the
inclusive `[T − 1h, T + 1h]` window; cancelling a reservation outside
that window leaves the value unchanged, and cancelling one inside it
increases the value by exactly that reservation's guest count. -/
theorem c3_available_capacity (db : Store) (R : Restaurant) (r : Reservation) (t : PyDateTime)
    (hmem : r ∈ db.reservations) (hnodup : (db.reservations.map Reservation.id).Nodup)
    (hid0 : r.id ≠ 0) :
    availableCapacity db R t =
      R.seating_capacity -
        (db.reservations.map
          (fun x => if inOverlapWindow t R.id x = true then x.guests else 0)).sum
    ∧ ∃ res db2, cancel_reservation db (some r.id) none none none = .ok (res, db2)
        ∧ res.success = true
        ∧ (inOverlapWindow t R.id r = false →
            availableCapacity db2 R t = availableCapacity db R t)
        ∧ (inOverlapWindow t R.id r = true →
            availableCapacity db2 R t = availableCapacity db R t + r.guests) := by
  constructor
  · unfold availableCapacity overlappingGuestCount
    rw [sum_filter_eq_sum_map_ite]
  · have hfind : db.reservations.find? (fun x => x.id == r.id) = some r :=
      find_id_of_mem_nodup _ _ hmem hnodup
    refine ⟨(cancelSuccess db r).1, deleteReservation db r, ?_, rfl, ?_, ?_⟩
    · simp [cancel_reservation, truthyInt, hid0, hfind]
      rfl
    · intro hout
      unfold availableCapacity
      rw [overlappingGuestCount_delete db r R.id t hmem hnodup, hout]
      simp
    · intro hin
      unfold availableCapacity
      rw [overlappingGuestCount_delete db r R.id t hmem hnodup, hin]
      simp only [if_true]
      omega

/-- Witness for C3 at `store0`: cancelling reservation 1 (8 guests at
19:00) raises the available capacity at 2025-05-15 20:00 by exactly 8
and leaves the capacity at 2025-05-16 12:00 (outside the window)
unchanged. -/
theorem c3_witness :
    ∃ res db2, cancel_reservation store0 (some 1) none none none = .ok (res, db2)
      ∧ res.success = true
      ∧ availableCapacity db2 royalCurry ⟨2025, 5, 15, 20, 0⟩ =
          availableCapacity store0 royalCurry ⟨2025, 5, 15, 20, 0⟩ + 8
      ∧ availableCapacity db2 royalCurry ⟨2025, 5, 16, 12, 0⟩ =
          availableCapacity store0 royalCurry ⟨2025, 5, 16, 12, 0⟩ := by
  obtain ⟨-, res, db2, heq, hs, -, hin⟩ :=
    c3_available_capacity store0 royalCurry resv1 ⟨2025, 5, 15, 20, 0⟩
      (by decide) (by decide) (by decide)
  obtain ⟨-, res2, db22, heq2, -, hout2, -⟩ :=
    c3_available_capacity store0 royalCurry resv1 ⟨2025, 5, 16, 12, 0⟩
      (by decide) (by decide) (by decide)
  rw [heq] at heq2
  simp only [Except.ok.injEq, Prod.mk.injEq] at heq2
  obtain ⟨hres, hdb⟩ := heq2
  refine ⟨res, db2, heq, hs, ?_, ?_⟩
  · have h := hin (by decide)
    simpa [resv1] using h
  · have h := hout2 (by decide)
    rw [← hdb] at h
    exact h

/-- C6: when a reservation id and a (contact, restaurant-name, exact
datetime) triple identify the same reservation in the same store, the
two cancellation modes return identical results and delete the same
row; and a second cancellation of that reservation — in either mode —
returns a `success = false` not-found result rather than raising. -/
theorem c6_cancel_equivalence (db : Store) (i : Int) (c n s : String) (dt : PyDateTime)
    (rest : Restaurant) (r : Reservation)
    (hi : i ≠ 0) (hc : c ≠ "") (hn : n ≠ "") (hs : s ≠ "")
    (hparse : fromisoformat s = some dt)
    (hfid : db.reservations.find? (fun x => x.id == i) = some r)
    (hrest : db.restaurants.find? (fun x => ilike x.name ("%" ++ n ++ "%")) = some rest)
    (htrip : db.reservations.find? (triplePred c rest.id dt) = some r)
    (huniq : ∀ x ∈ db.reservations, triplePred c rest.id dt x = true → x.id = r.id) :
    cancel_reservation db (some i) none none none =
        cancel_reservation db none (some c) (some n) (some s)
    ∧ cancel_reservation db (some i) none none none = .ok (cancelSuccess db r)
    ∧ (cancelSuccess db r).1.success = true
    ∧ cancel_reservation (deleteReservation db r) (some i) none none none =
        .ok (⟨false, "No reservation found with ID " ++ toString i ++ "."⟩,
             deleteReservation db r)
    ∧ cancel_reservation (deleteReservation db r) none (some c) (some n) (some s) =
        .ok (⟨false, "No matching reservation found with the given details."⟩,
             deleteReservation db r) := by
  have hid : truthyInt (some i) = true := by simp [truthyInt, hi]
  have hri : r.id = i := by
    have h := List.find?_some hfid
    simpa using h
  have e1 : cancel_reservation db (some i) none none none = .ok (cancelSuccess db r) := by
    simp [cancel_reservation, hid, hfid]
  have e2 : cancel_reservation db none (some c) (some n) (some s) =
      .ok (cancelSuccess db r) := by
    simp [cancel_reservation, truthyInt, truthyStr, hc, hn, hs, hparse, hrest, htrip]
  have hfid2 : (deleteReservation db r).reservations.find? (fun x => x.id == i) = none := by
    refine List.find?_eq_none.mpr ?_
    intro x hx
    simp only [deleteReservation, List.mem_filter] at hx
    obtain ⟨-, hxne⟩ := hx
    have hxne2 : x.id ≠ r.id := by simpa using hxne
    simp [hri ▸ hxne2]
  have htrip2 : (deleteReservation db r).reservations.find? (triplePred c rest.id dt) = none := by
    refine List.find?_eq_none.mpr ?_
    intro x hx hPx
    simp only [deleteReservation, List.mem_filter] at hx
    obtain ⟨hxmem, hxne⟩ := hx
    have hxne2 : x.id ≠ r.id := by simpa using hxne
    exact hxne2 (huniq x hxmem hPx)
  have e4 : cancel_reservation (deleteReservation db r) (some i) none none none =
      .ok (⟨false, "No reservation found with ID " ++ toString i ++ "."⟩,
           deleteReservation db r) := by
    simp [cancel_reservation, hid, hfid2]
  have hrest2 : (deleteReservation db r).restaurants.find?
      (fun x => ilike x.name ("%" ++ n ++ "%")) = some rest := hrest
  have e5 : cancel_reservation (deleteReservation db r) none (some c) (some n) (some s) =
      .ok (⟨false, "No matching reservation found with the given details."⟩,
           deleteReservation db r) := by
    simp [cancel_reservation, truthyInt, truthyStr, hc, hn, hs, hparse, hrest2, htrip2]
  exact ⟨e1.trans e2.symm, e1, rfl, e4, e5⟩

/-- Witness for C6 at `store0`: reservation id 1 and the triple
(contact 9845012345, name substring "royal curry", exact time
2025-05-15T19:00) identify the same reservation; both modes cancel it
identically and each second attempt reports not-found. -/
theorem c6_witness :
    cancel_reservation store0 (some 1) none none none =
        cancel_reservation store0 none (some "9845012345") (some "royal curry")
          (some "2025-05-15T19:00")
    ∧ cancel_reservation store0 (some 1) none none none = .ok (cancelSuccess store0 resv1)
    ∧ cancel_reservation (deleteReservation store0 resv1) (some 1) none none none =
        .ok (⟨false, "No reservation found with ID " ++ toString (1 : Int) ++ "."⟩,
             deleteReservation store0 resv1)
    ∧ cancel_reservation (deleteReservation store0 resv1) none (some "9845012345")
        (some "royal curry") (some "2025-05-15T19:00") =
        .ok (⟨false, "No matching reservation found with the given details."⟩,
             deleteReservation store0 resv1) := by
  obtain ⟨h1, h2, -, h4, h5⟩ := c6_cancel_equivalence store0 1 "9845012345" "royal curry"
    "2025-05-15T19:00" ⟨2025, 5, 15, 19, 0⟩ royalCurry resv1 (by decide) (by decide)
    (by decide) (by decide) (by decide) (by decide) (by decide) (by decide) (by decide)
  exact ⟨h1, h2, h4, h5⟩

/-- A user/assistant message is not a system message. -/
lemma not_system_of_ua {m : Msg} (h : isUserAssistantMsg m = true) : isSystemMsg m = false := by
  have h2 : m.role = "user" ∨ m.role = "assistant" := by
    simpa [isUserAssistantMsg] using h
  rcases h2 with h2 | h2 <;> simp [isSystemMsg, h2]

/-- A system message is not a user/assistant message. -/
lemma not_ua_of_system {m : Msg} (h : isSystemMsg m = true) : isUserAssistantMsg m = false := by
  have h2 : m.role = "system" := by simpa [isSystemMsg] using h
  simp [isUserAssistantMsg, h2]

/-- Python `xs[-k:]` is always a `drop`. -/
lemma takeLastPy_eq_drop (k : Nat) (xs : List Msg) :
    ∃ j, takeLastPy k xs = xs.drop j := by
  unfold takeLastPy
  by_cases h : k == 0
  · exact ⟨0, by simp [h]⟩
  · exact ⟨xs.length - k, by simp [h]⟩

/-- Python `xs[-k:]` keeps at most `k` elements when `k` is nonzero. -/
lemma takeLastPy_length (k : Nat) (hk : k ≠ 0) (xs : List Msg) :
    (takeLastPy k xs).length ≤ k := by
  unfold takeLastPy
  rw [if_neg (by simpa using hk), List.length_drop]
  omega

/-- `chat_history` keeps the system messages exactly. -/
lemma chat_history_filter_sys (mm : Nat) (ms : List Msg) :
    (chat_history mm ms).filter isSystemMsg = ms.filter isSystemMsg := by
  unfold chat_history
  rw [List.filter_append]
  have h1 : (ms.filter isSystemMsg).filter isSystemMsg = ms.filter isSystemMsg :=
    List.filter_eq_self.mpr (fun a ha => List.of_mem_filter ha)
  have h2 : (takeLastPy (mm * 2) (ms.filter isUserAssistantMsg)).filter isSystemMsg = [] := by
    refine List.filter_eq_nil_iff.mpr ?_
    intro a ha
    obtain ⟨j, hj⟩ := takeLastPy_eq_drop (mm * 2) (ms.filter isUserAssistantMsg)
    rw [hj] at ha
    have hmem : a ∈ ms.filter isUserAssistantMsg := List.mem_of_mem_drop ha
    simp [not_system_of_ua (List.of_mem_filter hmem)]
  rw [h1, h2, List.append_nil]

/-- The user/assistant part of `chat_history` is exactly the trailing
window. -/
lemma chat_history_filter_ua (mm : Nat) (ms : List Msg) :
    (chat_history mm ms).filter isUserAssistantMsg =
      takeLastPy (mm * 2) (ms.filter isUserAssistantMsg) := by
  unfold chat_history
  rw [List.filter_append]
  have h1 : (ms.filter isSystemMsg).filter isUserAssistantMsg = [] := by
    refine List.filter_eq_nil_iff.mpr ?_
    intro a ha
    simp [not_ua_of_system (List.of_mem_filter ha)]
  have h2 : (takeLastPy (mm * 2) (ms.filter isUserAssistantMsg)).filter isUserAssistantMsg =
      takeLastPy (mm * 2) (ms.filter isUserAssistantMsg) := by
    refine List.filter_eq_self.mpr ?_
    intro a ha
    obtain ⟨j, hj⟩ := takeLastPy_eq_drop (mm * 2) (ms.filter isUserAssistantMsg)
    rw [hj] at ha
    exact List.of_mem_filter (List.mem_of_mem_drop ha)
  rw [h1, h2, List.nil_append]

/-- The conversation invariant is preserved through any number of
completed exchanges. -/
lemma runTurns_invariant (mm : Nat) (hmm : 0 < mm) (sys : Msg) :
    ∀ batches : List (List Msg),
      (∀ b ∈ batches, ∀ m ∈ b, isUserAssistantMsg m = true) →
      ∀ ms : List Msg, ms.filter isSystemMsg = [sys] → ms.head? = some sys →
        (ms.filter isUserAssistantMsg).length ≤ 2 * mm →
        ((runTurns mm ms batches).filter isSystemMsg = [sys]
          ∧ (runTurns mm ms batches).head? = some sys
          ∧ ((runTurns mm ms batches).filter isUserAssistantMsg).length ≤ 2 * mm) := by
  intro batches
  induction batches with
  | nil => intro _ ms h1 h2 h3; exact ⟨h1, h2, h3⟩
  | cons b rest ih =>
    intro hb ms h1 h2 h3
    have hbua : ∀ m ∈ b, isUserAssistantMsg m = true := hb b (List.mem_cons_self _ _)
    have hfs : (ms ++ b).filter isSystemMsg = [sys] := by
      rw [List.filter_append, h1]
      have hb0 : b.filter isSystemMsg = [] :=
        List.filter_eq_nil_iff.mpr (fun a ha => by simp [not_system_of_ua (hbua a ha)])
      rw [hb0, List.append_nil]
    have hnew1 : (chat_history mm (ms ++ b)).filter isSystemMsg = [sys] := by
      rw [chat_history_filter_sys, hfs]
    have hnew2 : (chat_history mm (ms ++ b)).head? = some sys := by
      unfold chat_history
      rw [hfs]
      rfl
    have hnew3 : ((chat_history mm (ms ++ b)).filter isUserAssistantMsg).length ≤ 2 * mm := by
      rw [chat_history_filter_ua]
      have hl := takeLastPy_length (mm * 2) (by omega) ((ms ++ b).filter isUserAssistantMsg)
      omega
    exact ih (fun b2 hb2 => hb b2 (List.mem_cons_of_mem _ hb2)) _ hnew1 hnew2 hnew3

/-- C7: starting from the freshly initialised log `[sys]`, after any
number of completed exchanges (each appending only user/assistant
messages and then trimming) the state holds the system message exactly
once and at position 0, and at most `2 × MAX_MEMORY` user/assistant
messages; moreover a single trim never touches system messages and only
drops the oldest user/assistant messages (the kept ones are a suffix). -/
theorem c7_conversation_window (mm : Nat) (hmm : 0 < mm) (sys : Msg)
    (hsys : isSystemMsg sys = true) (batches : List (List Msg))
    (hb : ∀ b ∈ batches, ∀ m ∈ b, isUserAssistantMsg m = true) (ms : List Msg) :
    ((runTurns mm [sys] batches).filter isSystemMsg = [sys]
      ∧ (runTurns mm [sys] batches).head? = some sys
      ∧ ((runTurns mm [sys] batches).filter isUserAssistantMsg).length ≤ 2 * mm)
    ∧ ((chat_history mm ms).filter isSystemMsg = ms.filter isSystemMsg
      ∧ (chat_history mm ms).filter isUserAssistantMsg <:+ ms.filter isUserAssistantMsg) := by
  constructor
  · refine runTurns_invariant mm hmm sys batches hb [sys] ?_ rfl ?_
    · simp [hsys]
    · simp [not_ua_of_system hsys]
  · refine ⟨chat_history_filter_sys mm ms, ?_⟩
    rw [chat_history_filter_ua]
    obtain ⟨j, hj⟩ := takeLastPy_eq_drop (mm * 2) (ms.filter isUserAssistantMsg)
    rw [hj]
    exact List.drop_suffix j _

/-- The system message of `ReservationAgent.__post_init__`. -/
def sysMsg : Msg := ⟨"system", "You are a helpful restaurant reservation assistant."⟩

/-- Witness for C7 with the default `MAX_MEMORY = 5`, one completed
exchange, and a concrete two-message log for the single-trim facts. -/
theorem c7_witness :
    ((runTurns 5 [sysMsg] [[⟨"user", "hi"⟩, ⟨"assistant", "hello"⟩]]).filter isSystemMsg =
        [sysMsg]
      ∧ (runTurns 5 [sysMsg] [[⟨"user", "hi"⟩, ⟨"assistant", "hello"⟩]]).head? = some sysMsg
      ∧ ((runTurns 5 [sysMsg] [[⟨"user", "hi"⟩, ⟨"assistant", "hello"⟩]]).filter
          isUserAssistantMsg).length ≤ 2 * 5)
    ∧ ((chat_history 5 [sysMsg, ⟨"user", "a"⟩]).filter isSystemMsg =
          ([sysMsg, ⟨"user", "a"⟩] : List Msg).filter isSystemMsg
      ∧ (chat_history 5 [sysMsg, ⟨"user", "a"⟩]).filter isUserAssistantMsg <:+
          ([sysMsg, ⟨"user", "a"⟩] : List Msg).filter isUserAssistantMsg) :=
  c7_conversation_window 5 (by decide) sysMsg (by decide)
    [[⟨"user", "hi"⟩, ⟨"assistant", "hello"⟩]] (by decide) [sysMsg, ⟨"user", "a"⟩]

/-- The fuelled matcher is fuel-independent above the structural bound. -/
lemma likeMatchF_congr : ∀ (f1 f2 : Nat) (ps t : List Char),
    ps.length + t.length < f1 → ps.length + t.length < f2 →
    likeMatchF f1 ps t = likeMatchF f2 ps t := by
  intro f1
  induction f1 with
  | zero => intro f2 ps t h1 _; exact absurd h1 (Nat.not_lt_zero _)
  | succ f ih =>
    intro f2 ps t h1 h2
    cases f2 with
    | zero => exact absurd h2 (Nat.not_lt_zero _)
    | succ g =>
      cases ps with
      | nil => rfl
      | cons p ps2 =>
        simp only [List.length_cons] at h1 h2
        simp only [likeMatchF]
        by_cases hp : p = '%'
        · rw [if_pos hp, if_pos hp]
          have e1 : likeMatchF f ps2 t = likeMatchF g ps2 t := by
            apply ih <;> omega
          cases t with
          | nil => simp [e1]
          | cons c ts =>
            simp only [List.length_cons] at h1 h2
            have e2 : likeMatchF f (p :: ps2) ts = likeMatchF g (p :: ps2) ts := by
              apply ih <;> simp only [List.length_cons] <;> omega
            simp [e1, e2]
        · rw [if_neg hp, if_neg hp]
          cases t with
          | nil => rfl
          | cons c ts =>
            simp only [List.length_cons] at h1 h2
            have e3 : likeMatchF f ps2 ts = likeMatchF g ps2 ts := by
              apply ih <;> omega
            simp [e3]

/-- The empty pattern matches exactly the empty text. -/
lemma likeMatch_nil_pat (t : List Char) : likeMatch [] t = t.isEmpty := rfl

/-- One-step unfolding of a pattern starting with `%`. -/
lemma likeMatch_pct (ps t : List Char) :
    likeMatch ('%' :: ps) t =
      (likeMatch ps t ||
        (match t with
         | [] => false
         | _ :: ts => likeMatch ('%' :: ps) ts)) := by
  cases t with
  | nil => rfl
  | cons c ts =>
    show likeMatchF (('%' :: ps).length + (c :: ts).length + 1) ('%' :: ps) (c :: ts) = _
    have hstep : likeMatchF (('%' :: ps).length + (c :: ts).length + 1) ('%' :: ps) (c :: ts) =
        (likeMatchF (('%' :: ps).length + (c :: ts).length) ps (c :: ts) ||
          likeMatchF (('%' :: ps).length + (c :: ts).length) ('%' :: ps) ts) := rfl
    rw [hstep,
      likeMatchF_congr (('%' :: ps).length + (c :: ts).length)
        (ps.length + (c :: ts).length + 1) ps (c :: ts)
        (by simp only [List.length_cons]; omega) (by omega),
      likeMatchF_congr (('%' :: ps).length + (c :: ts).length)
        (('%' :: ps).length + ts.length + 1) ('%' :: ps) ts
        (by simp only [List.length_cons]; omega) (by simp only [List.length_cons]; omega)]
    rfl

/-- A literal (non-`%`) pattern head never matches empty text. -/
lemma likeMatch_lit_nil (p : Char) (ps : List Char) (hp : p ≠ '%') :
    likeMatch (p :: ps) [] = false := by
  show likeMatchF _ _ _ = false
  simp only [likeMatchF]
  rw [if_neg hp]

/-- One-step unfolding of a literal (non-`%`) pattern head on nonempty
text. -/
lemma likeMatch_lit_cons (p c : Char) (ps ts : List Char) (hp : p ≠ '%') :
    likeMatch (p :: ps) (c :: ts) =
      ((if p = '_' then true else p == c) && likeMatch ps ts) := by
  show likeMatchF ((p :: ps).length + (c :: ts).length + 1) (p :: ps) (c :: ts) = _
  simp only [likeMatchF]
  rw [if_neg hp]
  congr 1
  exact likeMatchF_congr _ _ _ _
    (by simp only [List.length_cons]; omega) (by omega)

/-- A pattern free of the `%` and `_` wildcards. -/
def noWild (cs : List Char) : Bool := cs.all (fun c => !(c == '%' || c == '_'))

/-- A wildcard-free pattern matches exactly itself. -/
lemma likeMatch_noWild (p t : List Char) (hp : noWild p = true) :
    (likeMatch p t = true ↔ p = t) := by
  induction p generalizing t with
  | nil =>
    rw [likeMatch_nil_pat]
    cases t <;> simp
  | cons a as ih =>
    have ha := (List.all_eq_true.mp hp) a (List.mem_cons_self _ _)
    have ha1 : ¬(a = '%') := by intro h; simp [h] at ha
    have ha2 : ¬(a = '_') := by intro h; simp [h] at ha
    have has : noWild as = true :=
      List.all_eq_true.mpr (fun x hx => (List.all_eq_true.mp hp) x (List.mem_cons_of_mem _ hx))
    cases t with
    | nil => rw [likeMatch_lit_nil a as ha1]; simp
    | cons c ts =>
      rw [likeMatch_lit_cons a c as ts ha1, if_neg ha2]
      simp [Bool.and_eq_true, beq_iff_eq, ih ts has, List.cons.injEq]

/-- The pattern `%` alone matches everything. -/
lemma likeMatch_pct_only (t : List Char) : likeMatch ['%'] t = true := by
  induction t with
  | nil => rfl
  | cons c ts ih =>
    rw [likeMatch_pct]
    simp [ih]

/-- A wildcard-free pattern followed by a trailing `%` matches exactly
the texts it prefixes. -/
lemma likeMatch_append_pct (p : List Char) (hp : noWild p = true) :
    ∀ t : List Char, (likeMatch (p ++ ['%']) t = true ↔ p <+: t) := by
  induction p with
  | nil =>
    intro t
    simp [likeMatch_pct_only, List.nil_prefix]
  | cons a as ih =>
    have ha := (List.all_eq_true.mp hp) a (List.mem_cons_self _ _)
    have ha1 : ¬(a = '%') := by intro h; simp [h] at ha
    have ha2 : ¬(a = '_') := by intro h; simp [h] at ha
    have has : noWild as = true :=
      List.all_eq_true.mpr (fun x hx => (List.all_eq_true.mp hp) x (List.mem_cons_of_mem _ hx))
    intro t
    cases t with
    | nil =>
      rw [List.cons_append, likeMatch_lit_nil a _ ha1]
      simp
    | cons c ts =>
      rw [List.cons_append, likeMatch_lit_cons a c _ ts ha1, if_neg ha2]
      simp [Bool.and_eq_true, beq_iff_eq, ih has ts, List.cons_prefix_cons]

/-- A leading `%` matches a text exactly when the rest of the pattern
matches some suffix. -/
lemma likeMatch_pct_suffix (q : List Char) :
    ∀ t : List Char,
      (likeMatch ('%' :: q) t = true ↔ ∃ s, s <:+ t ∧ likeMatch q s = true) := by
  intro t
  induction t with
  | nil =>
    rw [likeMatch_pct]
    simp [List.suffix_nil]
  | cons c ts ih =>
    rw [likeMatch_pct]
    simp only [Bool.or_eq_true, ih]
    constructor
    · rintro (h | ⟨s, hs, hq⟩)
      · exact ⟨c :: ts, List.suffix_refl _, h⟩
      · exact ⟨s, hs.trans (List.suffix_cons c ts), hq⟩
    · rintro ⟨s, hs, hq⟩
      rcases List.suffix_cons_iff.mp hs with h | h
      · subst h; exact Or.inl hq
      · exact Or.inr ⟨s, h, hq⟩

/-- A wildcard-free pattern wrapped in `%...%` matches exactly the
texts containing it. -/
lemma likeMatch_infix (p : List Char) (hp : noWild p = true) (t : List Char) :
    (likeMatch ('%' :: (p ++ ['%'])) t = true ↔ p <:+: t) := by
  rw [likeMatch_pct_suffix]
  constructor
  · rintro ⟨s, hs, hm⟩
    exact List.infix_iff_prefix_suffix.mpr ⟨s, (likeMatch_append_pct p hp s).mp hm, hs⟩
  · intro h
    obtain ⟨s, hps, hst⟩ := List.infix_iff_prefix_suffix.mp h
    exact ⟨s, hst, (likeMatch_append_pct p hp s).mpr hps⟩

/-- Lower-casing distributes over string append. -/
lemma lowerList_append (a b : String) : lowerList (a ++ b) = lowerList a ++ lowerList b := by
  simp [lowerList, String.toList, String.data_append]

/-- The head of a filtered list is the first element passing the
filter. -/
lemma head_filter_eq_find (P : Restaurant → Bool) (l : List Restaurant) :
    (l.filter P).head? = l.find? P := by
  induction l with
  | nil => rfl
  | cons x xs ih =>
    rw [List.filter_cons, List.find?_cons]
    by_cases h : P x = true
    · simp [h]
    · simp [h, ih]

/-- Chaining one amenity filter per preference equals one filter
requiring all of them. -/
lemma foldl_filter_all (prefs : List String) (l : List Restaurant) :
    prefs.foldl (fun q pref => q.filter (fun r => optIlike r.amenities ("%" ++ pref ++ "%"))) l =
      l.filter (fun r => prefs.all (fun pref => optIlike r.amenities ("%" ++ pref ++ "%"))) := by
  induction prefs generalizing l with
  | nil => simp
  | cons p ps ih =>
    rw [List.foldl_cons, ih, List.filter_filter]
    congr 1
    funext r
    simp only [List.all_cons]
    rw [Bool.and_comm]

/-- C4 as amended: restaurant lookup in `check_availability` returns
the first restaurant passing all filters combined by logical AND, where
the optional name filter and every amenity preference are
case-insensitive substring matches — but the location argument is
matched as a case-insensitive whole-pattern LIKE (no wildcards are
added), so for a wildcard-free argument the restaurant's location must
equal it up to case, not merely contain it. -/
theorem c4_restaurant_lookup (db : Store) (loc : String) (rn : Option String)
    (prefs : List String) :
    ((restaurantQueryCA db.restaurants loc rn prefs).head? =
      db.restaurants.find? (fun r =>
        (ilike r.location loc &&
            (if truthyStr rn = true then ilike r.name ("%" ++ rn.getD "" ++ "%") else true)) &&
          prefs.all (fun pref => optIlike r.amenities ("%" ++ pref ++ "%"))))
    ∧ (∀ col : String, noWild (lowerList loc) = true →
        (ilike col loc = true ↔ lowerList col = lowerList loc))
    ∧ (∀ col n : String, noWild (lowerList n) = true →
        (ilike col ("%" ++ n ++ "%") = true ↔ lowerList n <:+: lowerList col)) := by
  refine ⟨?_, ?_, ?_⟩
  · unfold restaurantQueryCA
    rw [foldl_filter_all]
    by_cases htr : truthyStr rn = true
    · rw [if_pos htr, List.filter_filter, List.filter_filter, head_filter_eq_find]
      congr 1
      funext r
      rw [if_pos htr]
      ac_rfl
    · rw [if_neg htr, List.filter_filter, head_filter_eq_find]
      congr 1
      funext r
      rw [if_neg htr, Bool.and_true]
      rw [Bool.and_comm]
  · intro col h
    have e := likeMatch_noWild (lowerList loc) (lowerList col) h
    unfold ilike at *
    rw [e]
    exact eq_comm
  · intro col n h
    have e : lowerList ("%" ++ n ++ "%") = '%' :: (lowerList n ++ ['%']) := by
      rw [lowerList_append, lowerList_append]
      rfl
    show likeMatch (lowerList ("%" ++ n ++ "%")) (lowerList col) = true ↔ _
    rw [e]
    exact likeMatch_infix (lowerList n) h (lowerList col)

/-- Counterexample to C4 as stated: "Koramangala" is a case-insensitive
substring of the location "Koramangala Bangalore", yet lookup with that
location argument matches nothing — the location filter is a
whole-pattern match, not a substring match. -/
theorem c4_counterexample :
    (lowerList "Koramangala" <:+: lowerList "Koramangala Bangalore")
    ∧ ilike "Koramangala Bangalore" "Koramangala" = false
    ∧ check_availability storeKB "Koramangala" "2025-05-15T20:00" 2 [] none =
        .ok ⟨false, none, [], "", "", []⟩ := by
  refine ⟨?_, by rfl, by rfl⟩
  exact ⟨[], lowerList " Bangalore", by decide⟩

/-- Witness for C4's amended statement at concrete inputs: the lookup
equation over `storeKB`, the whole-string location behaviour, and the
substring name behaviour. -/
theorem c4_witness :
    ((restaurantQueryCA storeKB.restaurants "koramangala bangalore" (some "royal")
        ["rooftop"]).head? =
      storeKB.restaurants.find? (fun r =>
        (ilike r.location "koramangala bangalore" &&
            (if truthyStr (some "royal") = true
             then ilike r.name ("%" ++ (some "royal" : Option String).getD "" ++ "%")
             else true)) &&
          (["rooftop"] : List String).all
            (fun pref => optIlike r.amenities ("%" ++ pref ++ "%"))))
    ∧ (ilike "Koramangala Bangalore" "koramangala bangalore" = true ↔
        lowerList "Koramangala Bangalore" = lowerList "koramangala bangalore")
    ∧ (ilike "Royal Curry House" ("%" ++ "royal" ++ "%") = true ↔
        lowerList "royal" <:+: lowerList "Royal Curry House") :=
  ⟨(c4_restaurant_lookup storeKB "koramangala bangalore" (some "royal") ["rooftop"]).1,
   (c4_restaurant_lookup storeKB "koramangala bangalore" (some "royal") ["rooftop"]).2.1
     "Koramangala Bangalore" (by decide),
   (c4_restaurant_lookup storeKB "koramangala bangalore" (some "royal") ["rooftop"]).2.2
     "Royal Curry House" "royal" (by decide)⟩
